import Mathlib

/-!
Verification of the waste-detection web application
(files `app.py` and `utils/detector.py`).

Strings that the Python code manipulates character by character
(filenames, base64 payloads) are modelled as `List Char` behind a
`String` wrapper; HTTP error messages stay `String`.  External
collaborators (the YOLO model, the OpenCV raster routines, the base64
codec, the filesystem) are modelled as oracle fields of the request
environment, following the contracts the code relies on.
-/

namespace WasteApp

/-! ## Detections and statistics (utils/detector.py) -/

/-- One detection dictionary as built in `detect_image` / `detect_frame`:
`{class: name, confidence: round(conf, 4), bbox: [x1, y1, x2, y2]}`. -/
structure Detection where
  className : String
  confidence : Rat
  bbox : List Int
deriving Repr, DecidableEq

/-- The statistics dictionary returned by `WasteDetector.get_statistics`.
The Python dict `categories` is modelled as an association list in
insertion order. -/
structure Statistics where
  total_items : Nat
  categories : List (String × Nat)
deriving Repr, DecidableEq

/-- Boolean test used to look a category key up in the association list. -/
def keyIs (c : String) (p : String × Nat) : Bool := p.1 == c

/-- Increment applied to an entry of the association list when its key is
the detected class. -/
def bumpEntry (c : String) (p : String × Nat) : String × Nat :=
  if p.1 = c then (p.1, p.2 + 1) else p

/-- One loop iteration of `get_statistics`: the Python body
`if class_name not in stats[...]: stats[...] = 0; stats[...] += 1`
inserts a fresh key with count 1 or increments the existing entry. -/
def bumpCategory (cats : List (String × Nat)) (c : String) : List (String × Nat) :=
  if cats.any (keyIs c) then
    cats.map (bumpEntry c)
  else
    cats ++ [(c, 1)]

/-- Embedding of `WasteDetector.get_statistics`. -/
def get_statistics (detections : List Detection) : Statistics :=
  { total_items := detections.length
  , categories :=
      detections.foldl (fun cats d => bumpCategory cats d.className) [] }

/-- Sum of all per-category counts. -/
def sumCounts (cats : List (String × Nat)) : Nat := (cats.map Prod.snd).sum

/-- Total count recorded in the buckets whose key is `c`. -/
def catCount (cats : List (String × Nat)) (c : String) : Nat :=
  ((cats.filter (keyIs c)).map Prod.snd).sum

/-- Number of buckets whose key is `c` (dict semantics keep this at most 1). -/
def occ (cats : List (String × Nat)) (c : String) : Nat :=
  (cats.filter (keyIs c)).length

lemma bumpEntry_fst (c : String) (p : String × Nat) : (bumpEntry c p).1 = p.1 := by
  unfold bumpEntry
  split <;> rfl

lemma bumpEntry_of_eq (c : String) (p : String × Nat) (h : p.1 = c) :
    bumpEntry c p = (p.1, p.2 + 1) := by
  simp [bumpEntry, h]

lemma bumpEntry_of_ne (c : String) (p : String × Nat) (h : ¬ p.1 = c) :
    bumpEntry c p = p := by
  simp [bumpEntry, h]

lemma sumCounts_cons (p : String × Nat) (l : List (String × Nat)) :
    sumCounts (p :: l) = p.2 + sumCounts l := by
  simp [sumCounts]

lemma catCount_cons (p : String × Nat) (l : List (String × Nat)) (c : String) :
    catCount (p :: l) c = (if p.1 = c then p.2 else 0) + catCount l c := by
  by_cases h : p.1 = c
  · simp [catCount, List.filter_cons, keyIs, h]
  · simp [catCount, List.filter_cons, keyIs, h]

lemma occ_cons (p : String × Nat) (l : List (String × Nat)) (c : String) :
    occ (p :: l) c = (if p.1 = c then 1 else 0) + occ l c := by
  by_cases h : p.1 = c
  · simp [occ, List.filter_cons, keyIs, h]
    omega
  · simp [occ, List.filter_cons, keyIs, h]

lemma sumCounts_map_bumpEntry (c : String) (cats : List (String × Nat)) :
    sumCounts (cats.map (bumpEntry c)) = sumCounts cats + occ cats c := by
  induction cats with
  | nil => simp [sumCounts, occ]
  | cons p t ih =>
    rw [List.map_cons, sumCounts_cons, sumCounts_cons, occ_cons, ih]
    by_cases h : p.1 = c
    · rw [bumpEntry_of_eq c p h, if_pos h]
      omega
    · rw [bumpEntry_of_ne c p h, if_neg h]
      omega

lemma catCount_map_bumpEntry_self (c : String) (cats : List (String × Nat)) :
    catCount (cats.map (bumpEntry c)) c = catCount cats c + occ cats c := by
  induction cats with
  | nil => simp [catCount, occ]
  | cons p t ih =>
    rw [List.map_cons, catCount_cons, catCount_cons, occ_cons, ih]
    by_cases h : p.1 = c
    · simp [bumpEntry, h]
      omega
    · simp [bumpEntry, h]

lemma catCount_map_bumpEntry_other (c c' : String) (hne : c' ≠ c)
    (cats : List (String × Nat)) :
    catCount (cats.map (bumpEntry c)) c' = catCount cats c' := by
  induction cats with
  | nil => simp [catCount]
  | cons p t ih =>
    rw [List.map_cons, catCount_cons, catCount_cons, ih, bumpEntry_fst]
    by_cases h : p.1 = c'
    · have hc : ¬ p.1 = c := by
        rw [h]; exact hne
      simp [bumpEntry, hc]
    · simp [h]

lemma occ_map_bumpEntry (c c' : String) (cats : List (String × Nat)) :
    occ (cats.map (bumpEntry c)) c' = occ cats c' := by
  induction cats with
  | nil => simp [occ]
  | cons p t ih =>
    rw [List.map_cons, occ_cons, occ_cons, ih, bumpEntry_fst]

lemma occ_eq_zero_of_not_any (c : String) (cats : List (String × Nat))
    (h : cats.any (keyIs c) = false) : occ cats c = 0 := by
  induction cats with
  | nil => simp [occ]
  | cons p t ih =>
    rw [List.any_cons, Bool.or_eq_false_iff] at h
    have hp : ¬ p.1 = c := by
      have := h.1
      simp [keyIs] at this
      exact this
    rw [occ_cons, if_neg hp, ih h.2]

lemma occ_pos_of_any (c : String) (cats : List (String × Nat))
    (h : cats.any (keyIs c) = true) : 1 ≤ occ cats c := by
  induction cats with
  | nil => simp at h
  | cons p t ih =>
    rw [occ_cons]
    by_cases hp : p.1 = c
    · rw [if_pos hp]
      omega
    · rw [List.any_cons] at h
      have hkey : keyIs c p = false := by simp [keyIs, hp]
      rw [hkey, Bool.false_or] at h
      have := ih h
      omega

lemma occ_append (l1 l2 : List (String × Nat)) (c : String) :
    occ (l1 ++ l2) c = occ l1 c + occ l2 c := by
  simp [occ, List.filter_append]

lemma catCount_append (l1 l2 : List (String × Nat)) (c : String) :
    catCount (l1 ++ l2) c = catCount l1 c + catCount l2 c := by
  simp [catCount, List.filter_append]

lemma sumCounts_append (l1 l2 : List (String × Nat)) :
    sumCounts (l1 ++ l2) = sumCounts l1 + sumCounts l2 := by
  simp [sumCounts]

lemma occ_single (c c' : String) :
    occ [(c, 1)] c' = if c = c' then 1 else 0 := by
  rw [occ_cons]
  by_cases h : c = c'
  · simp [occ, h]
  · simp [occ, h]

lemma catCount_single (c c' : String) :
    catCount [(c, 1)] c' = if c = c' then 1 else 0 := by
  rw [catCount_cons]
  by_cases h : c = c'
  · simp [catCount, h]
  · simp [catCount, h]

lemma occ_bumpCategory_le (cats : List (String × Nat)) (c : String)
    (hinv : ∀ c', occ cats c' ≤ 1) (c' : String) :
    occ (bumpCategory cats c) c' ≤ 1 := by
  unfold bumpCategory
  by_cases h : cats.any (keyIs c) = true
  · rw [if_pos h, occ_map_bumpEntry]
    exact hinv c'
  · rw [if_neg h, occ_append, occ_single]
    by_cases hc : c = c'
    · have h0 : occ cats c = 0 :=
        occ_eq_zero_of_not_any c cats (eq_false_of_ne_true h)
      rw [if_pos hc, ← hc, h0]
    · rw [if_neg hc]
      have := hinv c'
      omega

lemma sumCounts_bumpCategory (cats : List (String × Nat)) (c : String)
    (hinv : ∀ c', occ cats c' ≤ 1) :
    sumCounts (bumpCategory cats c) = sumCounts cats + 1 := by
  unfold bumpCategory
  by_cases h : cats.any (keyIs c) = true
  · have h1 : occ cats c = 1 := le_antisymm (hinv c) (occ_pos_of_any c cats h)
    rw [if_pos h, sumCounts_map_bumpEntry, h1]
  · rw [if_neg h, sumCounts_append, sumCounts_cons]
    simp [sumCounts]

lemma catCount_bumpCategory_self (cats : List (String × Nat)) (c : String)
    (hinv : ∀ c', occ cats c' ≤ 1) :
    catCount (bumpCategory cats c) c = catCount cats c + 1 := by
  unfold bumpCategory
  by_cases h : cats.any (keyIs c) = true
  · have h1 : occ cats c = 1 := le_antisymm (hinv c) (occ_pos_of_any c cats h)
    rw [if_pos h, catCount_map_bumpEntry_self, h1]
  · rw [if_neg h, catCount_append, catCount_single, if_pos rfl]

lemma catCount_bumpCategory_other (cats : List (String × Nat)) (c c' : String)
    (hne : c' ≠ c) :
    catCount (bumpCategory cats c) c' = catCount cats c' := by
  unfold bumpCategory
  by_cases h : cats.any (keyIs c) = true
  · rw [if_pos h, catCount_map_bumpEntry_other c c' hne]
  · rw [if_neg h, catCount_append, catCount_single,
      if_neg (fun hc => hne hc.symm)]
    omega

/-- The fold of `get_statistics`, analysed with a generalised accumulator. -/
lemma get_statistics_foldl (D : List Detection) :
    ∀ cats : List (String × Nat), (∀ c, occ cats c ≤ 1) →
      sumCounts (D.foldl (fun cs d => bumpCategory cs d.className) cats)
          = sumCounts cats + D.length
      ∧ (∀ c, catCount (D.foldl (fun cs d => bumpCategory cs d.className) cats) c
          = catCount cats c + (D.filter (fun d => d.className == c)).length)
      ∧ (∀ c, occ (D.foldl (fun cs d => bumpCategory cs d.className) cats) c ≤ 1) := by
  induction D with
  | nil => intro cats hinv; exact ⟨by simp, fun c => by simp, hinv⟩
  | cons d t ih =>
    intro cats hinv
    have hinv' : ∀ c, occ (bumpCategory cats d.className) c ≤ 1 :=
      occ_bumpCategory_le cats d.className hinv
    obtain ⟨hsum, hcat, hocc⟩ := ih (bumpCategory cats d.className) hinv'
    refine ⟨?_, ?_, ?_⟩
    · simp only [List.foldl_cons]
      rw [hsum, sumCounts_bumpCategory cats d.className hinv]
      simp only [List.length_cons]
      omega
    · intro c
      simp only [List.foldl_cons]
      rw [hcat c]
      by_cases hc : d.className = c
      · rw [hc, catCount_bumpCategory_self cats c hinv]
        simp [List.filter_cons, hc]
        omega
      · rw [catCount_bumpCategory_other cats d.className c
          (fun h => hc h.symm)]
        simp [List.filter_cons, hc]
    · intro c
      simp only [List.foldl_cons]
      exact hocc c

/-- C1: for every detection list `D`, `get_statistics D` reports
`total_items = D.length`, the per-category counts sum to `D.length`, and
for every category name `c` the bucket for `c` counts exactly the
detections whose `class` field is `c` — so each detection is counted in
exactly one bucket, the one named by its class. -/
theorem get_statistics_correct (D : List Detection) :
    (get_statistics D).total_items = D.length
    ∧ sumCounts (get_statistics D).categories = D.length
    ∧ ∀ c, catCount (get_statistics D).categories c
        = (D.filter (fun d => d.className == c)).length := by
  have h0 : ∀ c, occ ([] : List (String × Nat)) c ≤ 1 := by
    intro c; simp [occ]
  obtain ⟨hsum, hcat, _⟩ := get_statistics_foldl D [] h0
  refine ⟨rfl, ?_, ?_⟩
  · simpa [get_statistics, sumCounts] using hsum
  · intro c
    simpa [get_statistics, catCount] using hcat c

/-! ## Filename validation (app.py, `allowed_file`) -/

/-- `ALLOWED_EXTENSIONS` from app.py, as lower-case character lists.
The Python value is a set; only membership is ever used, so the listing
order is immaterial. -/
def ALLOWED_EXTENSIONS : List (List Char) :=
  [['p', 'n', 'g'], ['j', 'p', 'g'], ['j', 'p', 'e', 'g'],
   ['b', 'm', 'p'], ['w', 'e', 'b', 'p']]

/-- The characters after the last dot of a filename
(`filename.rsplit('.', 1)[1]`), or `none` when the name has no dot
(the `'.' in filename` guard of `allowed_file`). -/
def extAfterLastDot : List Char → Option (List Char)
  | [] => none
  | c :: rest =>
    match extAfterLastDot rest with
    | some e => some e
    | none => if c = '.' then some rest else none

/-- Embedding of `allowed_file` from app.py:
`'.' in filename and filename.rsplit('.', 1)[1].lower() in ALLOWED_EXTENSIONS`. -/
def allowed_file (filename : String) : Bool :=
  match extAfterLastDot filename.toList with
  | none => false
  | some ext => ALLOWED_EXTENSIONS.contains (ext.map Char.toLower)

/-! ## Data-URL handling in /detect_frame (app.py) -/

/-- Embedding of the Python string method `split` with a one-character
separator: splits at every occurrence of the separator. -/
def pySplit (sep : Char) : List Char → List (List Char)
  | [] => [[]]
  | c :: rest =>
    if c = sep then
      [] :: pySplit sep rest
    else
      match pySplit sep rest with
      | h :: t => (c :: h) :: t
      | [] => [[c]]

/-- Lines 185 and 186 of app.py:
`if ',' in image_data: image_data = image_data.split(',')[1]`.
When a comma is present, Python keeps index 1 of the split, the field
between the first and the second comma. -/
def stripDataUrlChars (cs : List Char) : List Char :=
  if cs.contains ',' then
    match pySplit ',' cs with
    | _ :: second :: _ => second
    | _ => cs
  else cs

/-- String wrapper for `stripDataUrlChars`. -/
def stripDataUrl (s : String) : String := String.mk (stripDataUrlChars s.toList)

/-- The transformation described by the words of the spec: strip
everything up through the first comma and keep the entire remainder.
Stated from the spec for comparison with `stripDataUrlChars`. -/
def dropThroughFirstComma : List Char → List Char
  | [] => []
  | c :: rest => if c = ',' then rest else dropThroughFirstComma rest

/-- Spec-worded stripping: whole remainder after the first comma. -/
def specStripChars (cs : List Char) : List Char :=
  if cs.contains ',' then dropThroughFirstComma cs else cs

lemma pySplit_ne_nil (sep : Char) (cs : List Char) : pySplit sep cs ≠ [] := by
  cases cs with
  | nil => simp [pySplit]
  | cons c rest =>
    simp only [pySplit]
    by_cases h : c = sep
    · simp [h]
    · rw [if_neg h]
      cases pySplit sep rest <;> simp

lemma pySplit_no_sep (sep : Char) (cs : List Char) (h : sep ∉ cs) :
    pySplit sep cs = [cs] := by
  induction cs with
  | nil => rfl
  | cons c rest ih =>
    have hc : ¬ c = sep := by
      intro hc
      exact h (hc ▸ List.mem_cons_self c rest)
    have hrest : sep ∉ rest := fun hm => h (List.mem_cons_of_mem c hm)
    simp only [pySplit, if_neg hc, ih hrest]

lemma pySplit_append_sep (sep : Char) (a b : List Char) (h : sep ∉ a) :
    pySplit sep (a ++ sep :: b) = a :: pySplit sep b := by
  induction a with
  | nil => simp [pySplit]
  | cons c a' ih =>
    have hc : ¬ c = sep := by
      intro hc
      exact h (hc ▸ List.mem_cons_self c a')
    have ha' : sep ∉ a' := fun hm => h (List.mem_cons_of_mem c hm)
    simp only [List.cons_append, pySplit, if_neg hc]
    rw [List.append_eq, ih ha']

lemma contains_of_mem_comma (cs : List Char) (h : ',' ∈ cs) :
    cs.contains ',' = true := by
  exact List.elem_eq_true_of_mem h

lemma not_contains_of_not_mem_comma (cs : List Char) (h : ',' ∉ cs) :
    cs.contains ',' = false := by
  by_contra hne
  have : cs.contains ',' = true := by
    cases hcc : cs.contains ',' with
    | true => rfl
    | false => exact absurd hcc hne
  exact h (List.mem_of_elem_eq_true this)

/-- C8 (amended): when the image string contains a comma the handler
keeps only the field between the first and the second comma
(`split(',')[1]`), not the entire remainder; when the string has
exactly one comma this field happens to be the entire remainder, and
strings without a comma are passed through whole. -/
theorem stripDataUrl_second_field :
    (∀ a b : List Char, ',' ∉ a → ',' ∉ b →
        stripDataUrlChars (a ++ ',' :: b) = b)
    ∧ (∀ a b rest : List Char, ',' ∉ a → ',' ∉ b →
        stripDataUrlChars (a ++ ',' :: (b ++ ',' :: rest)) = b)
    ∧ (∀ cs : List Char, ',' ∉ cs → stripDataUrlChars cs = cs) := by
  refine ⟨?_, ?_, ?_⟩
  · intro a b ha hb
    have hmem : ',' ∈ a ++ ',' :: b := by
      simp
    rw [stripDataUrlChars, if_pos (contains_of_mem_comma _ hmem),
      pySplit_append_sep ',' a b ha, pySplit_no_sep ',' b hb]
  · intro a b rest ha hb
    have hmem : ',' ∈ a ++ ',' :: (b ++ ',' :: rest) := by
      simp
    rw [stripDataUrlChars, if_pos (contains_of_mem_comma _ hmem),
      pySplit_append_sep ',' a _ ha, pySplit_append_sep ',' b rest hb]
  · intro cs h
    rw [stripDataUrlChars, if_neg]
    rw [not_contains_of_not_mem_comma cs h]
    simp

/-- Witness for the amended C8 statement at concrete inputs: a standard
data URL with one comma is stripped to its payload, while a payload
holding a second comma is cut short at that comma. -/
theorem stripDataUrl_second_field_witness :
    stripDataUrlChars (['d', 'a', 't', 'a', ':', ';', 'b', '6', '4'] ++
        ',' :: ['Q', 'U', 'J', 'D']) = ['Q', 'U', 'J', 'D']
    ∧ stripDataUrlChars (['x'] ++ ',' :: (['y'] ++ ',' :: ['z'])) = ['y'] := by
  refine ⟨?_, ?_⟩
  · exact stripDataUrl_second_field.1 _ _ (by decide) (by decide)
  · exact stripDataUrl_second_field.2.1 _ _ _ (by decide) (by decide)

/-- C8 counterexample: on `"a,b,c"` the code keeps `"b"`, while the
claim (strip through the first comma, decode the entire remainder)
demands `"b,c"`. -/
theorem stripDataUrl_counterexample :
    stripDataUrlChars ("a,b,c".toList) = "b".toList
    ∧ specStripChars ("a,b,c".toList) = "b,c".toList
    ∧ stripDataUrlChars ("a,b,c".toList) ≠ specStripChars ("a,b,c".toList) := by
  refine ⟨by decide, by decide, by decide⟩

/-! ## Base64 decoding model (external codec used by /detect_frame) -/

/-- Characters of the standard base64 alphabet (data characters). -/
def isB64Char (c : Char) : Bool := c.isAlphanum || c = '+' || c = '/'

/-- Models the error behaviour of the external Python
`base64.b64decode(s)` call with its default `validate=False`:
characters outside the base64 alphabet are discarded, and decoding
raises `binascii.Error` when the remaining characters (padding
included) do not fill whole groups of four. The codec is an external
library; only whether it raises matters to the handler. -/
def pyB64DecodeOk (cs : List Char) : Bool :=
  (cs.filter (fun c => isB64Char c || c = '=')).length % 4 == 0

/-! ## Raster images and OpenCV drawing (utils/detector.py) -/

/-- One BGR pixel. -/
abbrev Pixel := Nat × Nat × Nat

/-- A raster image: fixed dimensions and a pixel function. -/
structure Image where
  height : Nat
  width : Nat
  pix : Nat → Nat → Pixel

/-- `numpy.ndarray.copy()`: a fresh buffer with the same contents. -/
def Image.copy (img : Image) : Image :=
  { height := img.height, width := img.width, pix := fun r c => img.pix r c }

lemma Image.copy_eq (img : Image) : img.copy = img := rfl

/-- In-place painting of a region of pixels, clipped to the image
bounds; models the OpenCV drawing primitives, which write into the
destination buffer, clip to it, and never resize it. -/
def paint (img : Image) (region : Nat → Nat → Bool) (color : Pixel) : Image :=
  { img with pix := fun r c =>
      if r < img.height && c < img.width && region r c then color
      else img.pix r c }

/-- Pixel membership in the closed rectangle with corners (x1, y1) and
(x2, y2); OpenCV point convention (x is the column, y is the row). -/
def inRect (x1 y1 x2 y2 : Int) (r c : Nat) : Bool :=
  x1 ≤ (c : Int) && (c : Int) ≤ x2 && y1 ≤ (r : Int) && (r : Int) ≤ y2

/-- `cv2.rectangle` with stroke thickness 2: the border band. -/
def strokeRegion (x1 y1 x2 y2 : Int) (r c : Nat) : Bool :=
  inRect x1 y1 x2 y2 r c && !(inRect (x1 + 2) (y1 + 2) (x2 - 2) (y2 - 2) r c)

/-- `cv2.rectangle(img, (x1, y1), (x2, y2), color, 2)`. -/
def cvRectangleStroke (img : Image) (x1 y1 x2 y2 : Int) (color : Pixel) : Image :=
  paint img (strokeRegion x1 y1 x2 y2) color

/-- `cv2.rectangle(img, (x1, y1), (x2, y2), color, -1)`: filled. -/
def cvRectangleFilled (img : Image) (x1 y1 x2 y2 : Int) (color : Pixel) : Image :=
  paint img (inRect x1 y1 x2 y2) color

/-- `cv2.putText`: paints the glyph pixels of the text anchored at the
origin point; the glyph shapes belong to the external rasterizer and
are taken as an oracle. -/
def cvPutText (glyph : String → Int → Int → Nat → Nat → Bool)
    (img : Image) (text : String) (ox oy : Int) (color : Pixel) : Image :=
  paint img (fun r c => glyph text ox oy r c) color

/-- `self.colors`: BGR display color per waste category. -/
def colors : List (String × Pixel) :=
  [("plastic", (0, 255, 255)), ("paper", (255, 255, 255)),
   ("metal", (192, 192, 192)), ("glass", (255, 0, 255)),
   ("organic", (0, 255, 0)), ("cardboard", (19, 69, 139))]

/-- `self.default_color`. -/
def default_color : Pixel := (0, 255, 0)

/-- `self.colors.get(class_name.lower(), self.default_color)`. -/
def colorFor (class_name : String) : Pixel :=
  match colors.find? (fun p => p.1 == class_name.toLower) with
  | some p => p.2
  | none => default_color

/-- One raw box of the external `model.predict` output, with the xyxy
coordinates already truncated to int as in the source, the class id
and the confidence score. -/
structure RawBox where
  x1 : Int
  y1 : Int
  x2 : Int
  y2 : Int
  cls : Nat
  conf : Rat

/-- The parts of the `WasteDetector` handle and of OpenCV that the
annotating loop reads: the class-id-to-name table of the model, the
text measurement `cv2.getTextSize` and the glyph rasterizer of
`cv2.putText` (both external; font `FONT_HERSHEY_SIMPLEX`, scale 0.6,
thickness 2). `textSize label` returns `(label_width, label_height)`. -/
structure Annotator where
  class_names : Nat → String
  textSize : String → Nat × Nat
  glyphAt : String → Int → Int → Nat → Nat → Bool

/-- Models `round(conf, 4)` on the reported confidence (decimal
rounding; the bit-level tie behaviour of Python floats is not modelled
and no claim depends on it). -/
def round4 (q : Rat) : Rat := ((round (q * 10000) : Int) : Rat) / 10000

/-- Models the `f"{conf:.2f}"` formatting used in the label text. -/
def format2 (q : Rat) : String :=
  let n : Int := round (q * 100)
  toString (n / 100) ++ "." ++
    (if n % 100 < 10 then "0" else "") ++ toString (n % 100)

/-- The top y-coordinate of the filled label-background rectangle: the
first corner passed to `cv2.rectangle` is `(x1, y1 - label_height - 10)`
in both `detect_image` and `detect_frame`. -/
def labelBgTop (y1 : Int) (labelHeight : Nat) : Int :=
  y1 - labelHeight - 10

/-- The locals of the detection loops of `detect_image` and
`detect_frame`: the untouched input buffer, the working copy being
annotated, and the accumulated detection dictionaries. -/
structure AnnState where
  image : Image
  annotated : Image
  detections : List Detection

/-- Body of the inner `for box in boxes` loop, textually identical in
`detect_image` and `detect_frame`: draw the bounding box, the filled
label background and the black label text onto the working copy, then
append the detection record. Only the `annotated` buffer is written. -/
def processBox (ann : Annotator) (s : AnnState) (b : RawBox) : AnnState :=
  let class_name := ann.class_names b.cls
  let color := colorFor class_name
  let img1 := cvRectangleStroke s.annotated b.x1 b.y1 b.x2 b.y2 color
  let label := class_name ++ ": " ++ format2 b.conf
  let wh := ann.textSize label
  let img2 := cvRectangleFilled img1 b.x1 (labelBgTop b.y1 wh.2)
      (b.x1 + wh.1 + 10) b.y1 color
  let img3 := cvPutText ann.glyphAt img2 label (b.x1 + 5) (b.y1 - 5) (0, 0, 0)
  { image := s.image
  , annotated := img3
  , detections := s.detections ++
      [{ className := class_name
       , confidence := round4 b.conf
       , bbox := [b.x1, b.y1, b.x2, b.y2] }] }

/-- The `for result in results: for box in result.boxes` nest. -/
def annotateResults (ann : Annotator) (results : List (List RawBox))
    (s : AnnState) : AnnState :=
  results.foldl (fun st boxes => boxes.foldl (processBox ann) st) s

/-- The whole post-inference part of `detect_image` / `detect_frame`:
start from a fresh copy of the input raster and process every raw box. -/
def annotateAll (ann : Annotator) (input : Image)
    (results : List (List RawBox)) : AnnState :=
  annotateResults ann results
    { image := input, annotated := input.copy, detections := [] }

lemma processBox_image (ann : Annotator) (s : AnnState) (b : RawBox) :
    (processBox ann s b).image = s.image := rfl

lemma processBox_annotated_height (ann : Annotator) (s : AnnState) (b : RawBox) :
    (processBox ann s b).annotated.height = s.annotated.height := rfl

lemma processBox_annotated_width (ann : Annotator) (s : AnnState) (b : RawBox) :
    (processBox ann s b).annotated.width = s.annotated.width := rfl

lemma processBoxes_inv (ann : Annotator) (boxes : List RawBox) :
    ∀ s : AnnState,
      (boxes.foldl (processBox ann) s).image = s.image
      ∧ (boxes.foldl (processBox ann) s).annotated.height = s.annotated.height
      ∧ (boxes.foldl (processBox ann) s).annotated.width = s.annotated.width := by
  induction boxes with
  | nil => intro s; exact ⟨rfl, rfl, rfl⟩
  | cons b t ih =>
    intro s
    obtain ⟨h1, h2, h3⟩ := ih (processBox ann s b)
    refine ⟨?_, ?_, ?_⟩
    · rw [List.foldl_cons, h1, processBox_image]
    · rw [List.foldl_cons, h2, processBox_annotated_height]
    · rw [List.foldl_cons, h3, processBox_annotated_width]

lemma annotateResults_inv (ann : Annotator) (results : List (List RawBox)) :
    ∀ s : AnnState,
      (annotateResults ann results s).image = s.image
      ∧ (annotateResults ann results s).annotated.height = s.annotated.height
      ∧ (annotateResults ann results s).annotated.width = s.annotated.width := by
  induction results with
  | nil => intro s; exact ⟨rfl, rfl, rfl⟩
  | cons boxes t ih =>
    intro s
    obtain ⟨g1, g2, g3⟩ := processBoxes_inv ann boxes s
    obtain ⟨h1, h2, h3⟩ := ih (boxes.foldl (processBox ann) s)
    refine ⟨?_, ?_, ?_⟩
    · rw [annotateResults, List.foldl_cons]
      rw [annotateResults] at h1
      rw [h1, g1]
    · rw [annotateResults, List.foldl_cons]
      rw [annotateResults] at h2
      rw [h2, g2]
    · rw [annotateResults, List.foldl_cons]
      rw [annotateResults] at h3
      rw [h3, g3]

/-- C6: for every input raster and every model output (including the
empty one), the annotating loop of `detect_image` / `detect_frame`
draws on a copy: the annotated result keeps the dimensions of the
input, and the buffer passed in by the caller is left unchanged. -/
theorem annotate_preserves_input (ann : Annotator) (input : Image)
    (results : List (List RawBox)) :
    (annotateAll ann input results).image = input
    ∧ (annotateAll ann input results).annotated.height = input.height
    ∧ (annotateAll ann input results).annotated.width = input.width := by
  obtain ⟨h1, h2, h3⟩ := annotateResults_inv ann results
    { image := input, annotated := input.copy, detections := [] }
  exact ⟨h1, h2, h3⟩

/-- C7 counterexample: for a box whose top edge sits at y1 = 0 and a
label whose measured height is 13 pixels (a typical `cv2.getTextSize`
height at the scale the source uses), the top coordinate of the filled
label background that `processBox` hands to `cv2.rectangle` is -23,
which is negative: the coordinate is not clamped to the image bounds. -/
theorem labelBgTop_counterexample :
    labelBgTop 0 13 = -23 ∧ labelBgTop 0 13 < 0 := by decide

/-- C7 (amended): the annotator does not clamp the label background.
Its top coordinate is exactly `y1 - label_height - 10`, and it is
negative precisely when the top edge of the box lies fewer than
`label_height + 10` pixels below the image top. -/
theorem labelBgTop_unclamped (y1 : Int) (h : Nat) :
    labelBgTop y1 h = y1 - h - 10
    ∧ (labelBgTop y1 h < 0 ↔ y1 < (h : Int) + 10) := by
  refine ⟨rfl, ?_⟩
  unfold labelBgTop
  omega

/-! ## HTTP layer (app.py) -/

/-- Success body of /detect. -/
structure DetectPayload where
  original_image : String
  detected_image : String
  detections : List Detection
  statistics : Statistics
  confidence_threshold : Rat
deriving DecidableEq

/-- Success body of /detect_frame. -/
structure FramePayload where
  annotated_image : String
  detections : List Detection
  statistics : Statistics
  confidence_threshold : Rat
deriving DecidableEq

/-- A JSON response of the two detection endpoints. -/
inductive HttpResponse where
  | success (p : DetectPayload)
  | frameSuccess (p : FramePayload)
  | failure (status : Nat) (error : String)
deriving DecidableEq

/-- The HTTP status carried by a response (Flask defaults to 200 for
the success bodies). -/
def HttpResponse.statusOf : HttpResponse → Nat
  | .success _ => 200
  | .frameSuccess _ => 200
  | .failure s _ => s

def modelNotLoadedMsg : String :=
  "Model not loaded. Please check if models/best.pt exists."

def noFileMsg : String := "No file uploaded"

def noFileSelectedMsg : String := "No file selected"

/-- The 400 message for a disallowed extension. The Python f-string
joins a set, whose iteration order is implementation defined; the
membership is fixed and is all that any claim depends on, so the
extensions are joined here in declaration order. -/
def invalidTypeMsg : String :=
  "Invalid file type. Allowed types: png, jpg, jpeg, bmp, webp"

def UPLOAD_FOLDER : String := "static/uploads"

/-- The one field of an uploaded file that the handler inspects. -/
structure UploadFile where
  filename : String
deriving DecidableEq

/-- Everything one /detect request depends on: the module state and an
oracle for each fallible external step. An `Except.error e` field
records that the corresponding Python call raised with message `e`. -/
structure DetectEnv where
  /-- `detector is not None` -/
  detectorLoaded : Bool
  ann : Annotator
  /-- `request.files['file']` when the field is present -/
  fileField : Option UploadFile
  /-- `str(int(time.time() * 1000))` -/
  timestamp : String
  /-- `secure_filename(file.filename)` (external sanitizer) -/
  securedName : String
  /-- outcome of `file.save(filepath)` -/
  saveResult : Except String Unit
  /-- outcome of `float(request.form.get('confidence', 0.25))` -/
  confParse : Except String Rat
  /-- result of `cv2.imread(filepath)` -/
  imreadResult : Option Image
  /-- outcome of `self.model.predict(...)`, grouped per result -/
  predictResult : Except String (List (List RawBox))
  /-- outcome of `cv2.imwrite(output_path, annotated_image)` -/
  writeResult : Except String Unit
  /-- whether `os.remove(filepath)` would succeed -/
  removeInputOk : Bool
  /-- whether `os.remove(output_path)` would succeed -/
  removeOutputOk : Bool

/-- `f"{timestamp}_{filename}"` after sanitization. -/
def savedName (env : DetectEnv) : String :=
  env.timestamp ++ "_" ++ env.securedName

/-- `os.path.join(app.config['UPLOAD_FOLDER'], filename)`. -/
def inputFilepath (env : DetectEnv) : String :=
  UPLOAD_FOLDER ++ "/" ++ savedName env

/-- `f'/{app.config["UPLOAD_FOLDER"]}/{filename}'`. -/
def origUrl (env : DetectEnv) : String :=
  "/" ++ UPLOAD_FOLDER ++ "/" ++ savedName env

/-- `f"detected_{filename}"`. -/
def outputName (env : DetectEnv) : String :=
  "detected_" ++ savedName env

/-- `f'/{app.config["UPLOAD_FOLDER"]}/{output_filename}'`. -/
def outputUrl (env : DetectEnv) : String :=
  "/" ++ UPLOAD_FOLDER ++ "/" ++ outputName env

/-- Embedding of `WasteDetector.detect_image`: read the image (raising
ValueError when `cv2.imread` yields None, in which case the model is
never invoked), run the external model, then annotate a copy and
collect the detection dictionaries. -/
def detect_image (ann : Annotator) (image_path : String)
    (imreadResult : Option Image)
    (predictResult : Except String (List (List RawBox))) :
    Except String (Image × List Detection) :=
  match imreadResult with
  | none => .error ("Could not read image at " ++ image_path)
  | some image =>
    match predictResult with
    | .error e => .error e
    | .ok results =>
      let s := annotateAll ann image results
      .ok (s.annotated, s.detections)

/-- What happened to the two files during the except-block of /detect. -/
structure CleanupOutcome where
  attemptedRemoveInput : Bool
  removedInput : Bool
  attemptedRemoveOutput : Bool
  removedOutput : Bool
deriving DecidableEq

/-- The except-block of /detect:
`try: if exists(filepath): remove(filepath); if exists(output_path):
remove(output_path) except: pass`.
When the input removal raises, the bare except swallows the error and
the output branch is never reached; when the output file was never
created, `output_path` is an unbound local, the `os.path.exists` call
raises NameError, and that too is swallowed. -/
def cleanupFiles (inputOnDisk outputOnDisk removeInputOk removeOutputOk : Bool) :
    CleanupOutcome :=
  if inputOnDisk then
    if removeInputOk then
      if outputOnDisk then
        { attemptedRemoveInput := true, removedInput := true
        , attemptedRemoveOutput := true, removedOutput := removeOutputOk }
      else
        { attemptedRemoveInput := true, removedInput := true
        , attemptedRemoveOutput := false, removedOutput := false }
    else
      { attemptedRemoveInput := true, removedInput := false
      , attemptedRemoveOutput := false, removedOutput := false }
  else
    if outputOnDisk then
      { attemptedRemoveInput := false, removedInput := false
      , attemptedRemoveOutput := true, removedOutput := removeOutputOk }
    else
      { attemptedRemoveInput := false, removedInput := false
      , attemptedRemoveOutput := false, removedOutput := false }

/-- Observable outcome of one /detect request: the response plus the
file-system and inference effects. -/
structure DetectOutcome where
  response : HttpResponse
  savedInput : Bool
  wroteOutput : Bool
  cleanup : CleanupOutcome
  invokedPredict : Bool

/-- Outcome of the paths that reject a request before touching disk. -/
def rejectOutcome (r : HttpResponse) : DetectOutcome :=
  { response := r, savedInput := false, wroteOutput := false
  , cleanup := { attemptedRemoveInput := false, removedInput := false
               , attemptedRemoveOutput := false, removedOutput := false }
  , invokedPredict := false }

/-- The except-branch of /detect: best-effort cleanup followed by the
500 response carrying the cause string (a `cv2.imwrite` call that
raises is modelled as leaving no output file behind). -/
def detectFailure (env : DetectEnv) (e : String)
    (inputOnDisk wroteOut invoked : Bool) : DetectOutcome :=
  { response := .failure 500 ("Detection failed: " ++ e)
  , savedInput := inputOnDisk
  , wroteOutput := wroteOut
  , cleanup := cleanupFiles inputOnDisk wroteOut env.removeInputOk env.removeOutputOk
  , invokedPredict := invoked }

/-- Embedding of the /detect route handler of app.py. -/
def detect (env : DetectEnv) : DetectOutcome :=
  if env.detectorLoaded = false then
    rejectOutcome (.failure 500 modelNotLoadedMsg)
  else
    match env.fileField with
    | none => rejectOutcome (.failure 400 noFileMsg)
    | some f =>
      if f.filename = "" then
        rejectOutcome (.failure 400 noFileSelectedMsg)
      else if allowed_file f.filename = false then
        rejectOutcome (.failure 400 invalidTypeMsg)
      else
        match env.saveResult with
        | .error e => detectFailure env e false false false
        | .ok _ =>
          match env.confParse with
          | .error e => detectFailure env e true false false
          | .ok conf =>
            match detect_image env.ann (inputFilepath env)
                env.imreadResult env.predictResult with
            | .error e => detectFailure env e true false env.imreadResult.isSome
            | .ok res =>
              match env.writeResult with
              | .error e => detectFailure env e true false true
              | .ok _ =>
                { response := .success
                    { original_image := origUrl env
                    , detected_image := outputUrl env
                    , detections := res.2
                    , statistics := get_statistics res.2
                    , confidence_threshold := conf }
                , savedInput := true
                , wroteOutput := true
                , cleanup := { attemptedRemoveInput := false, removedInput := false
                             , attemptedRemoveOutput := false, removedOutput := false }
                , invokedPredict := true }

/-- The first exception raised inside the try-block of /detect after
the upload has been persisted, if any: threshold parsing, image
reading and inference, then annotated-image writing, in program order
(the statistics step is a pure fold and cannot raise). -/
def tryFailureAfterSave (env : DetectEnv) : Option String :=
  match env.confParse with
  | .error e => some e
  | .ok _ =>
    match detect_image env.ann (inputFilepath env)
        env.imreadResult env.predictResult with
    | .error e => some e
    | .ok _ =>
      match env.writeResult with
      | .error e => some e
      | .ok _ => none

/-- Whether the model was invoked on the failing run described by
`tryFailureAfterSave`. -/
def invokedOnFailure (env : DetectEnv) : Bool :=
  match env.confParse with
  | .error _ => false
  | .ok _ => env.imreadResult.isSome

/-- The fields of the JSON body that /detect_frame inspects
(`data['image']`; the confidence key is reflected in the
`confParse` oracle of the environment). -/
structure FrameJson where
  image : Option String

/-- Everything one /detect_frame request depends on. -/
structure FrameEnv where
  /-- `detector is not None` -/
  detectorLoaded : Bool
  ann : Annotator
  /-- `request.json`; `none` models a missing or falsy body -/
  json : Option FrameJson
  /-- outcome of `float(data.get('confidence', 0.25))` -/
  confParse : Except String Rat
  /-- result of `cv2.imdecode` on the successfully decoded bytes -/
  imdecodeResult : Option Image
  /-- outcome of `self.model.predict(...)` -/
  predictResult : Except String (List (List RawBox))
  /-- `cv2.imencode('.jpg', ...)` plus `base64.b64encode` (external) -/
  encodeB64 : Image → String

/-- Observable outcome of one /detect_frame request (this flow touches
no files). -/
structure FrameOutcome where
  response : HttpResponse
  invokedPredict : Bool

def noImageMsg : String := "No image data provided"

def decodeFailMsg : String := "Failed to decode image"

/-- Modelled message of the `binascii.Error` that the external
`base64.b64decode` raises on undecodable input. -/
def b64ErrorMsg : String := "Invalid base64-encoded string"

def frameFailedMsg (e : String) : String := "Frame detection failed: " ++ e

/-- Embedding of the /detect_frame route handler of app.py. The whole
body after the model gate sits in one try-block, so an exception from
any step — including the base64 decode — lands in the blanket
`except Exception` and answers 500. -/
def detect_frame (env : FrameEnv) : FrameOutcome :=
  if env.detectorLoaded = false then
    { response := .failure 500 modelNotLoadedMsg, invokedPredict := false }
  else
    match env.json with
    | none => { response := .failure 400 noImageMsg, invokedPredict := false }
    | some data =>
      match data.image with
      | none => { response := .failure 400 noImageMsg, invokedPredict := false }
      | some image_data =>
        match env.confParse with
        | .error e =>
          { response := .failure 500 (frameFailedMsg e), invokedPredict := false }
        | .ok conf =>
          if pyB64DecodeOk (stripDataUrl image_data).toList = false then
            { response := .failure 500 (frameFailedMsg b64ErrorMsg)
            , invokedPredict := false }
          else
            match env.imdecodeResult with
            | none =>
              { response := .failure 400 decodeFailMsg, invokedPredict := false }
            | some frame =>
              match env.predictResult with
              | .error e =>
                { response := .failure 500 (frameFailedMsg e), invokedPredict := true }
              | .ok results =>
                let s := annotateAll env.ann frame results
                { response := .frameSuccess
                    { annotated_image :=
                        "data:image/jpeg;base64," ++ env.encodeB64 s.annotated
                    , detections := s.detections
                    , statistics := get_statistics s.detections
                    , confidence_threshold := conf }
                , invokedPredict := true }

/-! ## Claim theorems about the HTTP layer, with concrete witnesses -/

/-- A concrete annotator for the closed witness statements: constant
class-name table and a typical `cv2.getTextSize` measurement. -/
def sampleAnn : Annotator :=
  { class_names := fun _ => "plastic"
  , textSize := fun _ => (70, 13)
  , glyphAt := fun _ _ _ _ _ => false }

/-- A concrete 2 by 2 raster for the closed witness statements. -/
def sampleImage : Image :=
  { height := 2, width := 2, pix := fun _ _ => (0, 0, 0) }

/-- C3: while the module-level detector handle is unset, /detect and
/detect_frame short-circuit with the 500 model-not-loaded error: no
inference is invoked, and /detect performs no file I/O at all. -/
theorem model_gate_short_circuits (env : DetectEnv) (fenv : FrameEnv)
    (h1 : env.detectorLoaded = false) (h2 : fenv.detectorLoaded = false) :
    (detect env).response = .failure 500 modelNotLoadedMsg
    ∧ (detect env).savedInput = false
    ∧ (detect env).wroteOutput = false
    ∧ (detect env).cleanup.attemptedRemoveInput = false
    ∧ (detect env).cleanup.attemptedRemoveOutput = false
    ∧ (detect env).invokedPredict = false
    ∧ (detect_frame fenv).response = .failure 500 modelNotLoadedMsg
    ∧ (detect_frame fenv).invokedPredict = false := by
  unfold detect detect_frame
  rw [if_pos h1, if_pos h2]
  exact ⟨rfl, rfl, rfl, rfl, rfl, rfl, rfl, rfl⟩

def c3DetectEnv : DetectEnv :=
  { detectorLoaded := false, ann := sampleAnn, fileField := none
  , timestamp := "1700000000000", securedName := "photo.jpg"
  , saveResult := .ok (), confParse := .ok (1 / 4)
  , imreadResult := some sampleImage, predictResult := .ok []
  , writeResult := .ok (), removeInputOk := true, removeOutputOk := true }

def c3FrameEnv : FrameEnv :=
  { detectorLoaded := false, ann := sampleAnn, json := none
  , confParse := .ok (1 / 4), imdecodeResult := none
  , predictResult := .ok [], encodeB64 := fun _ => "" }

/-- Witness for C3 at concrete environments with the handle unset. -/
theorem model_gate_short_circuits_witness :
    (detect c3DetectEnv).response = .failure 500 modelNotLoadedMsg
    ∧ (detect c3DetectEnv).savedInput = false
    ∧ (detect c3DetectEnv).wroteOutput = false
    ∧ (detect c3DetectEnv).cleanup.attemptedRemoveInput = false
    ∧ (detect c3DetectEnv).cleanup.attemptedRemoveOutput = false
    ∧ (detect c3DetectEnv).invokedPredict = false
    ∧ (detect_frame c3FrameEnv).response = .failure 500 modelNotLoadedMsg
    ∧ (detect_frame c3FrameEnv).invokedPredict = false :=
  model_gate_short_circuits c3DetectEnv c3FrameEnv rfl rfl

/-- C9: the model-loaded check precedes all input validation in
/detect: with the handle unset, every request — whatever its file
field, filename or extension — gets the 500 model-not-loaded response,
so a 400 validation error is never returned in that state. -/
theorem model_gate_precedes_validation (env : DetectEnv)
    (h : env.detectorLoaded = false) :
    (detect env).response = .failure 500 modelNotLoadedMsg
    ∧ (detect env).response.statusOf = 500
    ∧ (detect env).response.statusOf ≠ 400 := by
  unfold detect
  rw [if_pos h]
  exact ⟨rfl, rfl, by decide⟩

/-- An unset-handle environment whose request would also fail
validation: the file field holds a disallowed `.txt` name. -/
def c9Env : DetectEnv :=
  { detectorLoaded := false, ann := sampleAnn
  , fileField := some { filename := "notes.txt" }
  , timestamp := "1700000000000", securedName := "notes.txt"
  , saveResult := .ok (), confParse := .ok (1 / 4)
  , imreadResult := some sampleImage, predictResult := .ok []
  , writeResult := .ok (), removeInputOk := true, removeOutputOk := true }

/-- Witness for C9: even with an invalid upload the unset handle wins. -/
theorem model_gate_precedes_validation_witness :
    (detect c9Env).response = .failure 500 modelNotLoadedMsg
    ∧ (detect c9Env).response.statusOf = 500 := by
  have h := model_gate_precedes_validation c9Env rfl
  exact ⟨h.1, h.2.1⟩

/-- C4: with the detector loaded, a /detect request with no file
field, an empty filename, or a filename whose lower-cased extension is
not among png, jpg, jpeg, bmp, webp is answered 400 with a descriptive
message; nothing is persisted and no detection is attempted. -/
theorem detect_validation_rejects (env : DetectEnv)
    (hload : env.detectorLoaded = true)
    (hbad : env.fileField = none
      ∨ ∃ f, env.fileField = some f
          ∧ (f.filename = "" ∨ allowed_file f.filename = false)) :
    (∃ msg, (detect env).response = .failure 400 msg)
    ∧ (detect env).savedInput = false
    ∧ (detect env).wroteOutput = false
    ∧ (detect env).cleanup.attemptedRemoveInput = false
    ∧ (detect env).invokedPredict = false := by
  have hni : ¬ env.detectorLoaded = false := by rw [hload]; decide
  rcases hbad with hn | ⟨f, hf, hcase⟩
  · unfold detect
    rw [if_neg hni, hn]
    exact ⟨⟨noFileMsg, rfl⟩, rfl, rfl, rfl, rfl⟩
  · rcases hcase with hemp | hext
    · unfold detect
      rw [if_neg hni, hf]
      dsimp only
      rw [if_pos hemp]
      exact ⟨⟨noFileSelectedMsg, rfl⟩, rfl, rfl, rfl, rfl⟩
    · by_cases hemp : f.filename = ""
      · unfold detect
        rw [if_neg hni, hf]
        dsimp only
        rw [if_pos hemp]
        exact ⟨⟨noFileSelectedMsg, rfl⟩, rfl, rfl, rfl, rfl⟩
      · unfold detect
        rw [if_neg hni, hf]
        dsimp only
        rw [if_neg hemp, if_pos hext]
        exact ⟨⟨invalidTypeMsg, rfl⟩, rfl, rfl, rfl, rfl⟩

/-- A loaded-detector environment holding a `.txt` upload. -/
def c4Env : DetectEnv :=
  { detectorLoaded := true, ann := sampleAnn
  , fileField := some { filename := "notes.txt" }
  , timestamp := "1700000000000", securedName := "notes.txt"
  , saveResult := .ok (), confParse := .ok (1 / 4)
  , imreadResult := some sampleImage, predictResult := .ok []
  , writeResult := .ok (), removeInputOk := true, removeOutputOk := true }

/-- Witness for C4: the `.txt` upload gets the invalid-type 400. -/
theorem detect_validation_rejects_witness :
    (detect c4Env).response = .failure 400 invalidTypeMsg
    ∧ (detect c4Env).savedInput = false
    ∧ (detect c4Env).invokedPredict = false := by
  have h := detect_validation_rejects c4Env rfl
    (Or.inr ⟨{ filename := "notes.txt" }, rfl, Or.inr (by decide)⟩)
  exact ⟨by decide, h.2.1, h.2.2.2.2⟩

/-- Once a valid request has entered the try-block and the save has
succeeded, a failure of any later step lands in the except-branch. -/
lemma detect_valid_try (env : DetectEnv) (f : UploadFile)
    (hload : env.detectorLoaded = true)
    (hf : env.fileField = some f)
    (hemp : ¬ f.filename = "")
    (hext : allowed_file f.filename = true)
    (hsave : env.saveResult = .ok ())
    (e : String)
    (hfail : tryFailureAfterSave env = some e) :
    detect env = detectFailure env e true false (invokedOnFailure env) := by
  have hni : ¬ env.detectorLoaded = false := by rw [hload]; decide
  have hextne : ¬ allowed_file f.filename = false := by rw [hext]; decide
  unfold detect
  rw [if_neg hni, hf]
  dsimp only
  rw [if_neg hemp, if_neg hextne, hsave]
  dsimp only
  unfold tryFailureAfterSave at hfail
  unfold invokedOnFailure
  cases hc : env.confParse with
  | error e' =>
    rw [hc] at hfail
    have he : e' = e := by simpa using hfail
    dsimp only
    rw [he]
  | ok conf =>
    rw [hc] at hfail
    dsimp only
    simp only [] at hfail
    cases hd : detect_image env.ann (inputFilepath env)
        env.imreadResult env.predictResult with
    | error e' =>
      rw [hd] at hfail
      have he : e' = e := by simpa using hfail
      dsimp only
      rw [he]
    | ok res =>
      rw [hd] at hfail
      cases hw : env.writeResult with
      | error e' =>
        rw [hw] at hfail
        have he : e' = e := by simpa using hfail
        dsimp only
        rw [he]
        have hsome : env.imreadResult.isSome = true := by
          cases hir : env.imreadResult with
          | none =>
            rw [detect_image.eq_def, hir] at hd
            exact absurd hd (by simp)
          | some img => rfl
        rw [hsome]
      | ok u =>
        rw [hw] at hfail
        exact absurd hfail (by simp)

/-- C2: in /detect, once the upload has been persisted, an exception
raised by any remaining step of the try-block (threshold parsing,
image reading and inference, annotated-image writing; the statistics
fold is pure and cannot raise) yields a 500 response whose message is
the string "Detection failed: " followed by the cause string, so the
message contains the cause. Before responding, the handler attempts to
delete the persisted input, attempts to delete the "detected_" output
only if it was created (on these failure paths it never was), and
failures of the deletions themselves are swallowed: the response does
not depend on whether either deletion succeeds. -/
theorem detect_failure_cleanup (env : DetectEnv) (f : UploadFile) (e : String)
    (hload : env.detectorLoaded = true)
    (hf : env.fileField = some f)
    (hemp : ¬ f.filename = "")
    (hext : allowed_file f.filename = true)
    (hsave : env.saveResult = .ok ())
    (hfail : tryFailureAfterSave env = some e) :
    (detect env).response = .failure 500 ("Detection failed: " ++ e)
    ∧ (detect env).savedInput = true
    ∧ (detect env).wroteOutput = false
    ∧ (detect env).cleanup.attemptedRemoveInput = true
    ∧ (detect env).cleanup.attemptedRemoveOutput = false
    ∧ ∀ b1 b2 : Bool,
        (detect { env with removeInputOk := b1, removeOutputOk := b2 }).response
          = (detect env).response := by
  have h := detect_valid_try env f hload hf hemp hext hsave e hfail
  refine ⟨?_, ?_, ?_, ?_, ?_, ?_⟩
  · rw [h]; rfl
  · rw [h]; rfl
  · rw [h]; rfl
  · rw [h]
    show (cleanupFiles true false env.removeInputOk env.removeOutputOk).attemptedRemoveInput = true
    unfold cleanupFiles
    cases env.removeInputOk <;> simp
  · rw [h]
    show (cleanupFiles true false env.removeInputOk env.removeOutputOk).attemptedRemoveOutput = false
    unfold cleanupFiles
    cases env.removeInputOk <;> simp
  · intro b1 b2
    have h' := detect_valid_try
      { env with removeInputOk := b1, removeOutputOk := b2 } f
      hload hf hemp hext hsave e hfail
    rw [h, h']
    rfl

/-- A valid upload whose inference raises. -/
def c2Env : DetectEnv :=
  { detectorLoaded := true, ann := sampleAnn
  , fileField := some { filename := "photo.jpg" }
  , timestamp := "1700000000000", securedName := "photo.jpg"
  , saveResult := .ok (), confParse := .ok (1 / 4)
  , imreadResult := some sampleImage
  , predictResult := .error "model raised"
  , writeResult := .ok (), removeInputOk := true, removeOutputOk := true }

/-- Witness for C2 at a concrete failing run (inference raises), with
the deletion-failure invariance instantiated at failing deletions. -/
theorem detect_failure_cleanup_witness :
    (detect c2Env).response = .failure 500 ("Detection failed: " ++ "model raised")
    ∧ (detect c2Env).savedInput = true
    ∧ (detect c2Env).cleanup.attemptedRemoveInput = true
    ∧ (detect { c2Env with removeInputOk := false, removeOutputOk := false }).response
        = (detect c2Env).response := by
  have h := detect_failure_cleanup c2Env { filename := "photo.jpg" } "model raised"
    rfl rfl (by decide) (by decide) rfl rfl
  exact ⟨h.1, h.2.1, h.2.2.2.1, h.2.2.2.2.2 false false⟩

/-- C10: the confidence form field is parsed to float only after the
upload has been persisted, so a non-numeric value is answered by the
500 "Detection failed" handler — not a 400 client error — and the
cleanup path runs, deleting the just-saved input file whenever the
delete call itself succeeds. -/
theorem conf_parsed_after_save (env : DetectEnv) (f : UploadFile) (e : String)
    (hload : env.detectorLoaded = true)
    (hf : env.fileField = some f)
    (hemp : ¬ f.filename = "")
    (hext : allowed_file f.filename = true)
    (hsave : env.saveResult = .ok ())
    (hconf : env.confParse = .error e) :
    (detect env).savedInput = true
    ∧ (detect env).response = .failure 500 ("Detection failed: " ++ e)
    ∧ (detect env).response.statusOf = 500
    ∧ (detect env).response.statusOf ≠ 400
    ∧ (detect env).cleanup.attemptedRemoveInput = true
    ∧ (detect env).cleanup.removedInput = env.removeInputOk := by
  have hfail : tryFailureAfterSave env = some e := by
    unfold tryFailureAfterSave
    rw [hconf]
  have h := detect_valid_try env f hload hf hemp hext hsave e hfail
  have hstatus : (detect env).response.statusOf = 500 := by rw [h]; rfl
  refine ⟨?_, ?_, hstatus, ?_, ?_, ?_⟩
  · rw [h]; rfl
  · rw [h]; rfl
  · rw [hstatus]; decide
  · rw [h]
    show (cleanupFiles true false env.removeInputOk env.removeOutputOk).attemptedRemoveInput = true
    unfold cleanupFiles
    cases env.removeInputOk <;> simp
  · rw [h]
    show (cleanupFiles true false env.removeInputOk env.removeOutputOk).removedInput
        = env.removeInputOk
    unfold cleanupFiles
    cases env.removeInputOk <;> simp

/-- A valid upload whose confidence field is not numeric. -/
def c10Env : DetectEnv :=
  { detectorLoaded := true, ann := sampleAnn
  , fileField := some { filename := "photo.jpg" }
  , timestamp := "1700000000000", securedName := "photo.jpg"
  , saveResult := .ok ()
  , confParse := .error "could not convert string to float: abc"
  , imreadResult := some sampleImage, predictResult := .ok []
  , writeResult := .ok (), removeInputOk := true, removeOutputOk := true }

/-- Witness for C10 at a concrete non-numeric confidence value. -/
theorem conf_parsed_after_save_witness :
    (detect c10Env).savedInput = true
    ∧ (detect c10Env).response
        = .failure 500 ("Detection failed: " ++ "could not convert string to float: abc")
    ∧ (detect c10Env).response.statusOf = 500
    ∧ (detect c10Env).cleanup.attemptedRemoveInput = true
    ∧ (detect c10Env).cleanup.removedInput = c10Env.removeInputOk := by
  have h := conf_parsed_after_save c10Env { filename := "photo.jpg" }
    "could not convert string to float: abc"
    rfl rfl (by decide) (by decide) rfl rfl
  exact ⟨h.1, h.2.1, h.2.2.1, h.2.2.2.2.1, h.2.2.2.2.2⟩

/-- C5 (amended): in /detect_frame, a payload whose base64 decoding
succeeds but does not decode to a raster (`cv2.imdecode` yields None)
gets the 400 "Failed to decode image" client error, while a payload
whose base64 decoding itself raises — such as "not-base64" — is caught
by the blanket exception handler and answered 500, not 400; in both
cases the handler returns a response rather than crashing, and the
model is never invoked. -/
theorem frame_decode_failure (env : FrameEnv) (data : FrameJson) (img : String)
    (conf : Rat)
    (hload : env.detectorLoaded = true)
    (hjson : env.json = some data)
    (himg : data.image = some img)
    (hconf : env.confParse = .ok conf) :
    (pyB64DecodeOk (stripDataUrl img).toList = true →
      env.imdecodeResult = none →
      (detect_frame env).response = .failure 400 decodeFailMsg
      ∧ (detect_frame env).invokedPredict = false)
    ∧ (pyB64DecodeOk (stripDataUrl img).toList = false →
      (detect_frame env).response = .failure 500 (frameFailedMsg b64ErrorMsg)
      ∧ (detect_frame env).invokedPredict = false) := by
  have hni : ¬ env.detectorLoaded = false := by rw [hload]; decide
  constructor
  · intro hb64 hdec
    unfold detect_frame
    rw [if_neg hni, hjson]
    dsimp only
    rw [himg]
    dsimp only
    rw [hconf]
    dsimp only
    have hnb : ¬ pyB64DecodeOk (stripDataUrl img).toList = false := by
      rw [hb64]; decide
    rw [if_neg hnb, hdec]
    exact ⟨rfl, rfl⟩
  · intro hb64
    unfold detect_frame
    rw [if_neg hni, hjson]
    dsimp only
    rw [himg]
    dsimp only
    rw [hconf]
    dsimp only
    rw [if_pos hb64]
    exact ⟨rfl, rfl⟩

/-- The frame request of the spec scenario: image value "not-base64". -/
def c5Env : FrameEnv :=
  { detectorLoaded := true, ann := sampleAnn
  , json := some { image := some "not-base64" }
  , confParse := .ok (1 / 4)
  , imdecodeResult := none
  , predictResult := .ok []
  , encodeB64 := fun _ => "" }

/-- C5 counterexample: on the image value "not-base64" the base64
decode itself raises (nine data characters do not fill groups of
four), the blanket handler answers 500 "Frame detection failed: ...",
and the status is not the claimed 400. -/
theorem frame_bad_base64_counterexample :
    (detect_frame c5Env).response = .failure 500 (frameFailedMsg b64ErrorMsg)
    ∧ (detect_frame c5Env).response.statusOf = 500
    ∧ (detect_frame c5Env).response.statusOf ≠ 400 := by
  refine ⟨by decide, by decide, by decide⟩

/-- A frame request whose payload is valid base64 ("QUJD") but does
not decode to a raster. -/
def c5DecodeEnv : FrameEnv :=
  { detectorLoaded := true, ann := sampleAnn
  , json := some { image := some "QUJD" }
  , confParse := .ok (1 / 4)
  , imdecodeResult := none
  , predictResult := .ok []
  , encodeB64 := fun _ => "" }

/-- Witness for the amended C5 at a concrete undecodable raster. -/
theorem frame_decode_failure_witness :
    (detect_frame c5DecodeEnv).response = .failure 400 decodeFailMsg
    ∧ (detect_frame c5DecodeEnv).invokedPredict = false :=
  (frame_decode_failure c5DecodeEnv { image := some "QUJD" } "QUJD" (1 / 4)
    rfl rfl rfl rfl).1 (by decide) rfl

end WasteApp
